import Mathlib

/-!
Shallow embedding of the payment orchestration and subscription lifecycle
core of the bozy-bot repository, together with proofs about it.

Modelling conventions:
* Monetary values and platform fees are rationals (`ℚ`).  The JavaScript
  pattern `parseFloat(x.toFixed(2))` is modelled as half-up rounding to two
  decimal places (`round2`); `Math.max` is `max`; `Math.round` is `jsRound`.
* Timestamps are integers (days).  `new Date()` at reconciliation time is an
  explicit `now` parameter; `expiresAt.setDate(getDate() + duration_days)`
  is `now + duration_days`.
* Database reads that can fail are `Except Unit` values; a row that may be
  absent is an `Option`.  Row stores are lists, one element per row.
* Status strings are kept verbatim from the source.
-/

namespace BozyBot

/-- Half-up rounding to two decimal places, the model of
`parseFloat(x.toFixed(2))` on monetary values. -/
def round2 (x : ℚ) : ℚ := (⌊x * 100 + 1/2⌋ : ℤ) / 100

/-- A value representable with at most two decimal digits. -/
def twoDecimals (x : ℚ) : Prop := ∃ n : ℤ, x = n / 100

/-- Result shape of the split calculators (`{gross, platformFee, creatorNet}`). -/
structure Split where
  gross : ℚ
  platformFee : ℚ
  creatorNet : ℚ
  deriving Repr, DecidableEq

/-- Embeds `PaymentService.getPlatformFee` (src/services/payment/index.js,
lines 41-48): reads the `fixed_fee_amount` setting; returns its value when the
row exists, and the in-code default `0.55` when the row is absent or the read
itself raises.  The argument is the outcome of the storage read. -/
def getPlatformFee (readResult : Except Unit (Option ℚ)) : ℚ :=
  match readResult with
  | .ok (some v) => v
  | .ok none => 11/20
  | .error _ => 11/20

/-- Core of `PaymentService.calculateSplit` once the fee is in hand:
`creatorNet = Math.max(0, amount - platformFee)`, then all three outputs pass
through `parseFloat(x.toFixed(2))`. -/
def calculateSplitWithFee (platformFee amount : ℚ) : Split :=
  { gross := round2 amount
  , platformFee := round2 platformFee
  , creatorNet := round2 (max 0 (amount - platformFee)) }

/-- Embeds `PaymentService.calculateSplit` (src/services/payment/index.js,
lines 53-63): reads the platform fee via `getPlatformFee`, then computes the
split.  The per-gateway `calculateSplit` copies in AsaasService, StripeService,
PushinPayService are textually the same computation (same fee read, same
default, same formula), so this one definition embeds all of them. -/
def calculateSplit (readResult : Except Unit (Option ℚ)) (amount : ℚ) : Split :=
  calculateSplitWithFee (getPlatformFee readResult) amount

lemma round2_intCast_div (n : ℤ) : round2 ((n : ℚ) / 100) = (n : ℚ) / 100 := by
  unfold round2
  have h1 : (n : ℚ) / 100 * 100 + 1/2 = (n : ℚ) + 1/2 := by ring
  rw [h1]
  have h2 : ⌊(n : ℚ) + 1/2⌋ = n := by
    rw [Int.floor_eq_iff]
    constructor
    · linarith
    · linarith
  rw [h2]

lemma round2_of_twoDecimals {x : ℚ} (h : twoDecimals x) : round2 x = x := by
  obtain ⟨n, rfl⟩ := h
  exact round2_intCast_div n

lemma twoDecimals_round2 (x : ℚ) : twoDecimals (round2 x) :=
  ⟨⌊x * 100 + 1/2⌋, rfl⟩

lemma round2_zero : round2 0 = 0 := by
  have h : twoDecimals (0 : ℚ) := ⟨0, by norm_num⟩
  simpa using round2_of_twoDecimals h

/-- C3: for every grossAmount strictly below the current platform fee, the
split calculator returns creatorNet = 0 (never negative) while platformFee
stays at the configured fee value, and the call returns a value (the embedded
function is total, so no error path is taken). -/
theorem calculateSplit_clamp (readResult : Except Unit (Option ℚ)) (amount : ℚ)
    (h0 : 0 ≤ amount)
    (hlt : amount < getPlatformFee readResult)
    (hfee : twoDecimals (getPlatformFee readResult)) :
    (calculateSplit readResult amount).creatorNet = 0 ∧
    (calculateSplit readResult amount).platformFee = getPlatformFee readResult := by
  constructor
  · have hmax : max 0 (amount - getPlatformFee readResult) = 0 :=
      max_eq_left (by linarith)
    simp [calculateSplit, calculateSplitWithFee, hmax, round2_zero]
  · simp [calculateSplit, calculateSplitWithFee, round2_of_twoDecimals hfee]

/-- Witness for C3 at gross 0.40 against stored fee 0.55 (scenario B of the
spec): the clamp yields creatorNet 0 and platformFee 0.55. -/
theorem calculateSplit_clamp_witness :
    (0 : ℚ) ≤ 2/5 ∧ (2/5 : ℚ) < getPlatformFee (.ok (some (11/20))) ∧
    twoDecimals (getPlatformFee (.ok (some (11/20)))) ∧
    ((calculateSplit (.ok (some (11/20))) (2/5)).creatorNet = 0 ∧
     (calculateSplit (.ok (some (11/20))) (2/5)).platformFee
       = getPlatformFee (.ok (some (11/20)))) :=
  ⟨by norm_num, by norm_num [getPlatformFee], ⟨55, by norm_num [getPlatformFee]⟩,
    calculateSplit_clamp (.ok (some (11/20))) (2/5) (by norm_num)
      (by norm_num [getPlatformFee]) ⟨55, by norm_num [getPlatformFee]⟩⟩

/-- C4 counterexample: at gross 0.40 with fee 0.55 (a non-negative gross), the
outputs are platformFee 0.55 and creatorNet 0, whose sum 0.55 differs from the
gross 0.40 — so `platformFee + creatorNet == gross` does not hold for every
non-negative gross. -/
theorem calculateSplit_sum_counterexample :
    (0 : ℚ) ≤ 2/5 ∧
    (calculateSplit (.ok (some (11/20))) (2/5)).platformFee
      + (calculateSplit (.ok (some (11/20))) (2/5)).creatorNet
      ≠ (calculateSplit (.ok (some (11/20))) (2/5)).gross := by
  constructor
  · norm_num
  · norm_num [calculateSplit, calculateSplitWithFee, getPlatformFee, round2,
      Int.floor_eq_iff]

/-- C4 amended: both outputs always have at most two decimal digits, and the
sum law `platformFee + creatorNet = gross` holds whenever the fee does not
exceed the gross amount (and both carry at most two decimal digits); when the
gross is below the fee the zero clamp makes the sum equal the fee instead. -/
theorem calculateSplit_sum_of_fee_le (readResult : Except Unit (Option ℚ))
    (amount : ℚ) (h0 : 0 ≤ amount) (ha : twoDecimals amount)
    (hf : twoDecimals (getPlatformFee readResult))
    (hle : getPlatformFee readResult ≤ amount) :
    ((calculateSplit readResult amount).platformFee
       + (calculateSplit readResult amount).creatorNet
       = (calculateSplit readResult amount).gross)
    ∧ twoDecimals (calculateSplit readResult amount).platformFee
    ∧ twoDecimals (calculateSplit readResult amount).creatorNet := by
  have hmax : max 0 (amount - getPlatformFee readResult)
      = amount - getPlatformFee readResult := max_eq_right (by linarith)
  have hsub : twoDecimals (amount - getPlatformFee readResult) := by
    obtain ⟨a, rfl⟩ := ha
    obtain ⟨b, hb⟩ := hf
    exact ⟨a - b, by rw [hb]; push_cast; ring⟩
  refine ⟨?_, twoDecimals_round2 _, twoDecimals_round2 _⟩
  show round2 (getPlatformFee readResult)
      + round2 (max 0 (amount - getPlatformFee readResult)) = round2 amount
  rw [hmax, round2_of_twoDecimals ha, round2_of_twoDecimals hf,
    round2_of_twoDecimals hsub]
  ring

/-- Witness for the amended C4 at gross 10.00 with the default fee 0.55
(scenario A of the spec): 0.55 + 9.45 = 10.00 and both outputs have at most
two decimals. -/
theorem calculateSplit_sum_witness :
    (0 : ℚ) ≤ 10 ∧ twoDecimals (10 : ℚ) ∧
    twoDecimals (getPlatformFee (.ok none)) ∧
    getPlatformFee (.ok none) ≤ 10 ∧
    (((calculateSplit (.ok none) 10).platformFee
        + (calculateSplit (.ok none) 10).creatorNet
        = (calculateSplit (.ok none) 10).gross)
      ∧ twoDecimals (calculateSplit (.ok none) 10).platformFee
      ∧ twoDecimals (calculateSplit (.ok none) 10).creatorNet) :=
  ⟨by norm_num, ⟨1000, by norm_num⟩, ⟨55, by norm_num [getPlatformFee]⟩,
    by norm_num [getPlatformFee],
    calculateSplit_sum_of_fee_le (.ok none) 10 (by norm_num) ⟨1000, by norm_num⟩
      ⟨55, by norm_num [getPlatformFee]⟩ (by norm_num [getPlatformFee])⟩

/-- C10: the platform-fee read is total and always yields a number — the
stored value when the setting row exists, and the default 0.55 both when the
row is absent and when the storage read itself fails. -/
theorem getPlatformFee_total (v : ℚ) (e : Unit) :
    getPlatformFee (.ok (some v)) = v ∧
    getPlatformFee (.ok none) = 11/20 ∧
    getPlatformFee (.error e) = 11/20 :=
  ⟨rfl, rfl, rfl⟩

/-- A plan row: only the fields `processPaymentStatus` reads.  Ids are strings
(UUIDs in the source). -/
structure Plan where
  id : String
  duration_days : ℤ
  deriving Repr, DecidableEq

/-- A subscription row, with the fields the webhook reconciler, the checkout
controller and the expiration sweeper touch. -/
structure Subscription where
  id : String
  plan_id : Option String
  user_telegram_id : String
  status : String
  starts_at : Option ℤ
  expires_at : Option ℤ
  created_at : ℤ
  deriving Repr, DecidableEq

/-- A transaction row, with the fields the webhook reconciler and the checkout
controller touch. -/
structure Transaction where
  id : String
  subscription_id : String
  gateway_payment_id : Option String
  gateway_status : String
  status : String
  paid_at : Option ℤ
  amount_gross : ℚ
  amount_platform_fee : ℚ
  amount_net_creator : ℚ
  deriving Repr, DecidableEq

/-- The confirmed bucket of `processPaymentStatus`
(src/controllers/WebhookController.js, line 256). -/
def confirmedStatuses : List String :=
  ["CONFIRMED", "RECEIVED", "PAID", "complete", "approved"]

/-- The failed bucket of `processPaymentStatus` (line 257). -/
def failedStatuses : List String :=
  ["OVERDUE", "FAILED", "REFUNDED", "CANCELLED", "rejected"]

/-- Status-bucket mapping of `processPaymentStatus` (lines 259-264): confirmed
bucket, else failed bucket, else pending. -/
def mapGatewayStatus (gatewayStatus : String) : String :=
  if gatewayStatus ∈ confirmedStatuses then "confirmed"
  else if gatewayStatus ∈ failedStatuses then "failed"
  else "pending"

/-- Embeds `WebhookController.processPaymentStatus`
(src/controllers/WebhookController.js, lines 252-297).  Inputs: the plan
store, the current time `now` (the value of `new Date()` during this call),
the transaction, its subscription, the raw gateway status, and the optional
`eventData.paidAt`.  Output: the updated transaction, the updated
subscription, and whether `TelegramEngine.notifySubscriptionActivated` was
invoked during this call.  Note the source guards nothing on the current
transaction or subscription status: the update always runs. -/
def processPaymentStatus (plans : List Plan) (now : ℤ) (tx : Transaction)
    (sub : Subscription) (gatewayStatus : String) (eventPaidAt : Option ℤ) :
    Transaction × Subscription × Bool :=
  let newStatus := mapGatewayStatus gatewayStatus
  let tx2 : Transaction :=
    { tx with
      gateway_status := gatewayStatus
      status := newStatus
      paid_at := if newStatus = "confirmed" then some (eventPaidAt.getD now) else none }
  if newStatus = "confirmed" then
    let plan := sub.plan_id.bind (fun pid => plans.find? (fun p => p.id = pid))
    let expiresAt : Option ℤ :=
      match plan with
      | some p => if 0 < p.duration_days then some (now + p.duration_days) else none
      | none => none
    (tx2,
     { sub with status := "active", starts_at := some now, expires_at := expiresAt },
     true)
  else if newStatus = "failed" then
    (tx2, { sub with status := "failed" }, false)
  else
    (tx2, sub, false)

/-- Concrete 30-day plan used by the reconciliation scenarios. -/
def planA : Plan := ⟨"plan-1", 30⟩

/-- A pending transaction for a 10.00 checkout with split 0.55 / 9.45. -/
def txA : Transaction :=
  ⟨"tx-1", "sub-1", some "pay_1", "PENDING", "pending", none, 10, 11/20, 189/20⟩

/-- The pending subscription owning `txA`. -/
def subA : Subscription := ⟨"sub-1", some "plan-1", "111", "pending", none, none, 0⟩

/-- First reconciliation of the confirmed event, at time 100. -/
def reconcileOnce : Transaction × Subscription × Bool :=
  processPaymentStatus [planA] 100 txA subA "CONFIRMED" none

/-- The same confirmed event reconciled a second time, still at time 100. -/
def reconcileAgainSameNow : Transaction × Subscription × Bool :=
  processPaymentStatus [planA] 100 reconcileOnce.1 reconcileOnce.2.1 "CONFIRMED" none

/-- The same confirmed event reconciled a second time, redelivered at time 105. -/
def reconcileAgainLater : Transaction × Subscription × Bool :=
  processPaymentStatus [planA] 105 reconcileOnce.1 reconcileOnce.2.1 "CONFIRMED" none

/-- C1: reconciliation of a confirmed event is not idempotent in the source.
`processPaymentStatus` never inspects the current transaction status, so the
second application of the same confirmed event runs the activation block
again: the notification fires on both applications (twice, not exactly once),
and a redelivery at time 105 recomputes `expires_at` from the second "now"
(135 instead of the original 130). -/
theorem processPaymentStatus_double_confirm_bug :
    reconcileOnce.2.2 = true ∧
    reconcileOnce.2.1.status = "active" ∧
    reconcileOnce.2.1.expires_at = some 130 ∧
    reconcileAgainSameNow.2.2 = true ∧
    reconcileAgainLater.2.2 = true ∧
    reconcileAgainLater.2.1.expires_at = some 135 := by
  decide

/-- A confirmed transaction (paid at time 100) for the terminality scenarios. -/
def txB : Transaction :=
  ⟨"tx-1", "sub-1", some "pay_1", "CONFIRMED", "confirmed", some 100, 10, 11/20, 189/20⟩

/-- The active subscription owning `txB`, expiring at time 130. -/
def subB : Subscription :=
  ⟨"sub-1", some "plan-1", "111", "active", some 100, some 130, 0⟩

/-- A failed event reconciled at time 140, after the confirmed one. -/
def failedAfterConfirmed : Transaction × Subscription × Bool :=
  processPaymentStatus [planA] 140 txB subB "FAILED" none

/-- C2: confirmed is not terminal in the source.  `processPaymentStatus`
applies the failed bucket unconditionally, so a failed event arriving after a
confirmed one flips the confirmed transaction to failed and reverts the active
subscription to failed. -/
theorem processPaymentStatus_failed_overwrites_confirmed :
    txB.status = "confirmed" ∧ subB.status = "active" ∧
    failedAfterConfirmed.1.status = "failed" ∧
    failedAfterConfirmed.2.1.status = "failed" := by
  decide

/-- A pending-bucket event reconciled at time 140 against the confirmed
transaction and its active subscription. -/
def pendingAfterConfirmed : Transaction × Subscription × Bool :=
  processPaymentStatus [planA] 140 txB subB "PENDING" none

/-- C7 counterexample: a pending-bucket event is not mutation-free.  The
status "PENDING" maps to the pending bucket, yet the transaction row is
rewritten — `gateway_status` becomes "PENDING", the normalized status becomes
"pending" and `paid_at` is cleared — so the transaction after processing
differs from the transaction before.  (The subscription is indeed unchanged.) -/
theorem processPaymentStatus_pending_mutates :
    mapGatewayStatus "PENDING" = "pending" ∧
    pendingAfterConfirmed.1 ≠ txB ∧
    pendingAfterConfirmed.1.gateway_status = "PENDING" ∧
    pendingAfterConfirmed.1.status = "pending" ∧
    pendingAfterConfirmed.1.paid_at = none ∧
    pendingAfterConfirmed.2.1 = subB :=
  ⟨by decide,
   fun h => absurd (congrArg Transaction.paid_at h) (by decide),
   by decide, by decide, by decide, by decide⟩

/-- C7 amended: for every event whose status maps to the pending bucket, the
subscription is unchanged and no notification fires, but the transaction row
is written: `gateway_status` is set to the raw event status, the normalized
status is set to pending, and `paid_at` is cleared. -/
theorem processPaymentStatus_pending_frame (plans : List Plan) (now : ℤ)
    (tx : Transaction) (sub : Subscription) (g : String) (p : Option ℤ)
    (h : mapGatewayStatus g = "pending") :
    (processPaymentStatus plans now tx sub g p).2.1 = sub ∧
    (processPaymentStatus plans now tx sub g p).2.2 = false ∧
    (processPaymentStatus plans now tx sub g p).1
      = { tx with gateway_status := g, status := "pending", paid_at := none } := by
  simp only [processPaymentStatus, h]
  simp

/-- Witness for the amended C7, at the raw status "PENDING" against the
confirmed transaction `txB` and its active subscription `subB`. -/
theorem processPaymentStatus_pending_frame_witness :
    mapGatewayStatus "PENDING" = "pending" ∧
    ((processPaymentStatus [planA] 140 txB subB "PENDING" none).2.1 = subB ∧
     (processPaymentStatus [planA] 140 txB subB "PENDING" none).2.2 = false ∧
     (processPaymentStatus [planA] 140 txB subB "PENDING" none).1
       = { txB with gateway_status := "PENDING", status := "pending", paid_at := none }) :=
  ⟨by decide, processPaymentStatus_pending_frame [planA] 140 txB subB "PENDING" none (by decide)⟩

/-- Splitting a character list on a separator, the model of the JavaScript
`String.prototype.split` with a one-character separator (as in
`externalRef.split(removed)` of `findSubscriptionByExternalRef`): it always
yields at least one (possibly empty) part. -/
def splitOnChar (sep : Char) : List Char → List (List Char)
  | [] => [[]]
  | c :: cs =>
    match splitOnChar sep cs, decide (c = sep) with
    | rest, true => [] :: rest
    | [], false => [[c]]
    | r :: rs, false => (c :: r) :: rs

/-- The parts of an external reference, split on the underscore. -/
def refParts (ref : String) : List String :=
  (splitOnChar '_' ref.toList).map String.mk

/-- Picks the row `findOne` returns under `ORDER BY created_at DESC`: the
leftmost row with maximal `created_at` (the tie order of the database is not
observable; leftmost is the deterministic choice of the model). -/
def pickLatestCreated (rows : List Subscription) : Option Subscription :=
  rows.foldl
    (fun acc s =>
      match acc with
      | none => some s
      | some b => if b.created_at < s.created_at then some s else some b)
    none

/-- Embeds `WebhookController.findSubscriptionByExternalRef`
(src/controllers/WebhookController.js, lines 302-317).  The code splits the
reference on underscores and reads `parts[0]` (the plan id) and `parts[1]`
(the telegram id), but its query filters only on `plan_id` and
`status = pending`, ordered by `created_at` descending — the telegram-id part
is extracted and then never used. -/
def findSubscriptionByExternalRef (subs : List Subscription)
    (externalRef : Option String) : Option Subscription :=
  match externalRef with
  | none => none
  | some ref =>
    if ref = "" then none
    else
      let planId := (refParts ref).headD ""
      pickLatestCreated
        (subs.filter (fun s => decide (s.plan_id = some planId ∧ s.status = "pending")))

/-- The first stage of the `handleAsaas` lookup: `Transaction.findOne` on
`gateway_payment_id = event.paymentId` (a `WHERE x = NULL` query matches no
row, so an absent payment id finds nothing). -/
def findTransactionByPaymentId (txs : List Transaction) :
    Option String → Option Transaction
  | some pid => txs.find? (fun t => decide (t.gateway_payment_id = some pid))
  | none => none

/-- Embeds the transaction lookup of `WebhookController.handleAsaas`
(src/controllers/WebhookController.js, lines 29-49): first
`Transaction.findOne` on `gateway_payment_id = event.paymentId`; if nothing
matches and the event carries an external reference, fall back to
`findSubscriptionByExternalRef` and take a transaction of that subscription
(the source issues `findOne` with no ordering; the model takes the first
stored row). -/
def findTransactionForAsaasEvent (txs : List Transaction)
    (subs : List Subscription) (paymentId : Option String)
    (externalReference : Option String) : Option Transaction :=
  match findTransactionByPaymentId txs paymentId with
  | some t => some t
  | none =>
    match findSubscriptionByExternalRef subs externalReference with
    | some s => txs.find? (fun t => decide (t.subscription_id = s.id))
    | none => none

lemma pickLatestCreated_aux (rows : List Subscription) :
    ∀ (acc : Option Subscription) (t : Subscription),
      rows.foldl
        (fun acc s =>
          match acc with
          | none => some s
          | some b => if b.created_at < s.created_at then some s else some b)
        acc = some t →
      (t ∈ rows ∨ acc = some t) ∧
      (∀ s ∈ rows, s.created_at ≤ t.created_at) ∧
      (∀ b, acc = some b → b.created_at ≤ t.created_at) := by
  induction rows with
  | nil =>
    intro acc t h
    simp only [List.foldl_nil] at h
    refine ⟨Or.inr h, by simp, ?_⟩
    intro b hb
    rw [hb] at h
    cases h
    exact le_refl _
  | cons s rows ih =>
    intro acc t h
    rw [List.foldl_cons] at h
    obtain ⟨hmem, hall, hacc⟩ := ih _ t h
    have hstep : ∀ c, (match acc with
        | none => some s
        | some b => if b.created_at < s.created_at then some s else some b) = some c →
        (c = s ∨ acc = some c) ∧ s.created_at ≤ c.created_at ∧
        (∀ b, acc = some b → b.created_at ≤ c.created_at) := by
      intro c hc
      cases acc with
      | none =>
        simp at hc
        subst hc
        exact ⟨Or.inl rfl, le_refl _, by simp⟩
      | some b =>
        by_cases hlt : b.created_at < s.created_at
        · simp [hlt] at hc
          subst hc
          exact ⟨Or.inl rfl, le_refl _, by intro b2 hb2; cases hb2; exact le_of_lt hlt⟩
        · simp [hlt] at hc
          subst hc
          exact ⟨Or.inr rfl, le_of_not_lt hlt, by intro b2 hb2; cases hb2; exact le_refl _⟩
    refine ⟨?_, ?_, ?_⟩
    · rcases hmem with h1 | h1
      · exact Or.inl (List.mem_cons_of_mem _ h1)
      · rcases (hstep t h1).1 with h2 | h2
        · exact Or.inl (h2 ▸ List.mem_cons_self _ _)
        · exact Or.inr h2
    · intro x hx
      rcases List.mem_cons.mp hx with rfl | hx2
      · cases hacc2 : (match acc with
          | none => some x
          | some b => if b.created_at < x.created_at then some x else some b) with
        | none =>
          cases acc with
          | none => simp at hacc2
          | some b =>
            by_cases hlt : b.created_at < x.created_at <;> simp [hlt] at hacc2
        | some c =>
          have := (hstep c hacc2).2.1
          exact le_trans this (hacc c hacc2)
      · exact hall x hx2
    · intro b hb
      cases hacc2 : (match acc with
          | none => some s
          | some b => if b.created_at < s.created_at then some s else some b) with
      | none =>
        cases acc with
        | none => simp at hacc2
        | some b2 =>
          by_cases hlt : b2.created_at < s.created_at <;> simp [hlt] at hacc2
      | some c =>
        have h1 := (hstep c hacc2).2.2 b hb
        exact le_trans h1 (hacc c hacc2)

lemma pickLatestCreated_spec (rows : List Subscription) (t : Subscription)
    (h : pickLatestCreated rows = some t) :
    t ∈ rows ∧ ∀ s ∈ rows, s.created_at ≤ t.created_at := by
  obtain ⟨hmem, hall, _⟩ := pickLatestCreated_aux rows none t h
  rcases hmem with h1 | h1
  · exact ⟨h1, hall⟩
  · cases h1

/-- C6 amended: the reconciler looks up the transaction by provider payment
id first; when no transaction matches and the fallback yields a transaction,
that transaction belongs to the most recently created pending subscription of
the plan parsed from the first underscore-separated part of the external
reference — the user part of the reference plays no role in the selection. -/
theorem findTransactionForAsaasEvent_fallback (txs : List Transaction)
    (subs : List Subscription) (pid ref : String) (t : Transaction)
    (hnone : ∀ tx ∈ txs, tx.gateway_payment_id ≠ some pid)
    (hfind : findTransactionForAsaasEvent txs subs (some pid) (some ref)
      = some t) :
    ∃ s ∈ subs, findSubscriptionByExternalRef subs (some ref) = some s ∧
      t ∈ txs ∧ t.subscription_id = s.id ∧
      s.status = "pending" ∧ s.plan_id = some ((refParts ref).headD "") ∧
      ∀ s2 ∈ subs, s2.plan_id = some ((refParts ref).headD "") →
        s2.status = "pending" → s2.created_at ≤ s.created_at := by
  have hbyId : findTransactionByPaymentId txs (some pid) = none := by
    show txs.find? (fun tx => decide (tx.gateway_payment_id = some pid)) = none
    rw [List.find?_eq_none]
    intro tx htx
    simpa using hnone tx htx
  unfold findTransactionForAsaasEvent at hfind
  rw [hbyId] at hfind
  cases hsub : findSubscriptionByExternalRef subs (some ref) with
  | none =>
    rw [hsub] at hfind
    cases hfind
  | some s =>
    rw [hsub] at hfind
    have hfind2 : txs.find? (fun tx => decide (tx.subscription_id = s.id))
        = some t := hfind
    have ht_mem : t ∈ txs := List.mem_of_find?_eq_some hfind2
    have ht_pred := List.find?_some hfind2
    have ht_sub : t.subscription_id = s.id := by simpa using ht_pred
    have hsub2 := hsub
    unfold findSubscriptionByExternalRef at hsub2
    simp only at hsub2
    by_cases href : ref = ""
    · rw [if_pos href] at hsub2; cases hsub2
    · rw [if_neg href] at hsub2
      obtain ⟨hmem, hmax⟩ := pickLatestCreated_spec _ _ hsub2
      have hmem2 := List.mem_filter.mp hmem
      have hprops : s.plan_id = some ((refParts ref).headD "")
          ∧ s.status = "pending" := by simpa using hmem2.2
      refine ⟨s, hmem2.1, rfl, ht_mem, ht_sub, hprops.2, hprops.1, ?_⟩
      intro s2 hs2 hplan hstat
      exact hmax s2 (List.mem_filter.mpr ⟨hs2, by simp [hplan, hstat]⟩)

/-- Pending subscription of plan 7 for telegram user 111, created at time 1. -/
def subRef1 : Subscription := ⟨"sub-a", some "7", "111", "pending", none, none, 1⟩

/-- Pending subscription of plan 7 for telegram user 222, created at time 2. -/
def subRef2 : Subscription := ⟨"sub-b", some "7", "222", "pending", none, none, 2⟩

/-- The pending transaction of `subRef1`. -/
def txRef1 : Transaction :=
  ⟨"tx-a", "sub-a", some "pay_a", "PENDING", "pending", none, 10, 11/20, 189/20⟩

/-- The pending transaction of `subRef2`. -/
def txRef2 : Transaction :=
  ⟨"tx-b", "sub-b", some "pay_b", "PENDING", "pending", none, 10, 11/20, 189/20⟩

/-- C6 counterexample: the external reference `7_111_999` names plan 7 and
telegram user 111, whose pending subscription is `subRef1`; but since the
query never constrains the user, the lookup resolves to the transaction of
`subRef2` — the later-created pending subscription of plan 7 belonging to the
DIFFERENT user 222.  So the claim that the lookup derives the subscription of
that plan AND that user is false on this store. -/
theorem findTransactionForAsaasEvent_ignores_user :
    (refParts "7_111_999").getD 1 "" = "111" ∧
    subRef1.user_telegram_id = "111" ∧ subRef1.plan_id = some "7" ∧
    subRef1.status = "pending" ∧ subRef2.user_telegram_id = "222" ∧
    (findTransactionForAsaasEvent [txRef1, txRef2] [subRef1, subRef2]
        (some "pay_unknown") (some "7_111_999")).map Transaction.id
      = some "tx-b" ∧
    txRef2.subscription_id = subRef2.id ∧
    subRef2.user_telegram_id ≠ "111" := by
  refine ⟨by decide, by decide, by decide, by decide, by decide, ?_, by decide, by decide⟩
  rfl

/-- Witness for the amended C6: on a one-subscription store the hypotheses of
the fallback theorem hold and it applies. -/
theorem findTransactionForAsaasEvent_fallback_witness :
    (∀ tx ∈ [txRef1], tx.gateway_payment_id ≠ some "pay_unknown") ∧
    (findTransactionForAsaasEvent [txRef1] [subRef1] (some "pay_unknown")
        (some "7_111_999") = some txRef1) ∧
    (∃ s ∈ [subRef1],
      findSubscriptionByExternalRef [subRef1] (some "7_111_999") = some s ∧
      txRef1 ∈ [txRef1] ∧ txRef1.subscription_id = s.id ∧
      s.status = "pending" ∧ s.plan_id = some ((refParts "7_111_999").headD "") ∧
      ∀ s2 ∈ [subRef1], s2.plan_id = some ((refParts "7_111_999").headD "") →
        s2.status = "pending" → s2.created_at ≤ s.created_at) :=
  ⟨by decide, rfl,
    findTransactionForAsaasEvent_fallback [txRef1] [subRef1] "pay_unknown"
      "7_111_999" txRef1 (by decide) rfl⟩

/-- JS `Math.round`: half-up rounding to the nearest integer. -/
def jsRound (x : ℚ) : ℤ := ⌊x + 1/2⌋

/-- Embeds the split data flow of one checkout with a provider-side split.
`CheckoutController.generateLink` (src/controllers/CheckoutController.js,
lines 90-205) computes `splitAmounts` once via `PaymentService.calculateSplit`
and records it on the pending Transaction, but it hands the adapter only the
gross amount (`paymentData.amount`): the adapter
(`PushinPayService.createPixPayment`, and likewise the Asaas adapter) then
recomputes the split with its OWN `calculateSplit` — a second, independent
read of the `fixed_fee_amount` setting — and sends that platform fee to the
provider (`split_rules` value, in cents).  `read1` and `read2` are those two
fee reads; the result is the recorded split and the platform-fee cents sent. -/
def checkoutSplitFlow (read1 read2 : Except Unit (Option ℚ)) (price : ℚ) :
    Split × ℤ :=
  let recorded := calculateSplit read1 price
  let grossAmount := recorded.gross
  let sent := calculateSplit read2 grossAmount
  (recorded, jsRound (sent.platformFee * 100))

/-- C5 counterexample: with price 10.00, first fee read 0.55 and second fee
read 1.00 (the configured fee changed between the orchestrator computation
and the adapter call), the local Transaction records platformFee 0.55 (55
cents) while the provider is sent 100 cents: provider-side and local
bookkeeping diverge, so the split is not computed once and passed through. -/
theorem checkoutSplitFlow_diverges :
    (checkoutSplitFlow (.ok (some (11/20))) (.ok (some 1)) 10).2 = 100 ∧
    jsRound ((checkoutSplitFlow (.ok (some (11/20))) (.ok (some 1)) 10).1.platformFee * 100)
      = 55 ∧
    (checkoutSplitFlow (.ok (some (11/20))) (.ok (some 1)) 10).2
      ≠ jsRound ((checkoutSplitFlow (.ok (some (11/20))) (.ok (some 1)) 10).1.platformFee * 100) := by
  refine ⟨?_, ?_, ?_⟩ <;>
    norm_num [checkoutSplitFlow, calculateSplit, calculateSplitWithFee,
      getPlatformFee, round2, jsRound, Int.floor_eq_iff]

/-- C5 amended: the split is computed twice — once by the orchestrator for
the recorded Transaction and once inside the adapter for the provider call —
and the two agree exactly when both computations read the same platform fee:
with equal fee reads, the platform-fee cents sent to the provider equal the
cents of the recorded platform fee. -/
theorem checkoutSplitFlow_same_reads_agree (read : Except Unit (Option ℚ))
    (price : ℚ) :
    (checkoutSplitFlow read read price).2
      = jsRound ((checkoutSplitFlow read read price).1.platformFee * 100) :=
  rfl

/-- Neutral adapter result shape (`result.id`, `result.invoiceUrl`). -/
structure PayResult where
  id : Option String
  invoiceUrl : Option String

/-- The persistent rows the checkout and webhook flows touch. -/
structure Store where
  subscriptions : List Subscription
  transactions : List Transaction

/-- The persistence tail of `generateLink` (lines 159-205): nothing is
written on adapter failure; on success a pending Subscription and its pending
Transaction (carrying the orchestrator split) are appended. -/
def persistCheckout (st : Store) (splitAmounts : Split) (subId txId : String)
    (planId : Option String) (telegramId : String) (now : ℤ) :
    Except Unit PayResult → Store × Bool
  | .error _ => (st, false)
  | .ok r =>
    ({ subscriptions := st.subscriptions ++
        [{ id := subId, plan_id := planId, user_telegram_id := telegramId,
           status := "pending", starts_at := none, expires_at := none,
           created_at := now }]
     , transactions := st.transactions ++
        [{ id := txId, subscription_id := subId, gateway_payment_id := r.id,
           gateway_status := "", status := "pending", paid_at := none,
           amount_gross := splitAmounts.gross,
           amount_platform_fee := splitAmounts.platformFee,
           amount_net_creator := splitAmounts.creatorNet }] }, true)

/-- Embeds `CheckoutController.generateLink`
(src/controllers/CheckoutController.js, lines 90-205) from the point where
the creator is resolved: a missing gateway token returns a 400 with no write;
otherwise the split is computed, the gateway adapter is called (the
`try/catch` around `PaymentService.createPaymentLink`), and only on adapter
success are the pending Subscription and Transaction rows created.  The
Boolean result distinguishes the success path from the early returns.  Fields
the claims never read (user e-mail, gateway name, invoice URL on the row) are
not carried. -/
def generateLink (st : Store) (creatorToken : Option String)
    (read1 : Except Unit (Option ℚ)) (price : ℚ)
    (adapterCall : Split → Except Unit PayResult) (subId txId : String)
    (planId : Option String) (telegramId : String) (now : ℤ) : Store × Bool :=
  match creatorToken with
  | none => (st, false)
  | some _ =>
    let splitAmounts := calculateSplit read1 price
    persistCheckout st splitAmounts subId txId planId telegramId now
      (adapterCall splitAmounts)

/-- C8: when the gateway adapter call fails, `generateLink` creates no
Subscription row and no Transaction row — the store after the failed checkout
is the store before it. -/
theorem generateLink_adapter_failure_no_rows (st : Store) (tok : String)
    (read1 : Except Unit (Option ℚ)) (price : ℚ)
    (adapterCall : Split → Except Unit PayResult) (subId txId : String)
    (planId : Option String) (telegramId : String) (now : ℤ) (e : Unit)
    (h : adapterCall (calculateSplit read1 price) = .error e) :
    generateLink st (some tok) read1 price adapterCall subId txId planId
      telegramId now = (st, false) := by
  have hstep : generateLink st (some tok) read1 price adapterCall subId txId
      planId telegramId now
      = persistCheckout st (calculateSplit read1 price) subId txId planId
        telegramId now (adapterCall (calculateSplit read1 price)) := rfl
  rw [hstep, h]
  rfl

/-- Witness for C8 with an adapter that always fails: the empty store is
returned unchanged. -/
theorem generateLink_adapter_failure_witness :
    ((fun _ : Split => (Except.error () : Except Unit PayResult))
        (calculateSplit (.ok none) 10) = .error ()) ∧
    (generateLink ⟨[], []⟩ (some "tok") (.ok none) 10
        (fun _ => .error ()) "sub-1" "tx-1" (some "plan-1") "111" 0
      = (⟨[], []⟩, false)) :=
  ⟨rfl, generateLink_adapter_failure_no_rows ⟨[], []⟩ "tok" (.ok none) 10
    (fun _ => .error ()) "sub-1" "tx-1" (some "plan-1") "111" 0 () rfl⟩

/-- The `WHERE` predicate of the sweeper query
(src/services/CronService.js, lines 73-87): status active, `expires_at`
non-null and strictly before now. -/
def expiredPred (now : ℤ) (s : Subscription) : Bool :=
  decide (s.status = "active") &&
    (match s.expires_at with
     | some t => decide (t < now)
     | none => false)

/-- The per-row `UPDATE` of the sweeper loop (line 99). -/
def expireRow (s : Subscription) : Subscription := { s with status := "expired" }

/-- Embeds `CronService.processExpiredSubscriptions`
(src/services/CronService.js, lines 66-114): select the rows matching
`expiredPred`, set each of them to expired, touch nothing else.  One list
element is one row.  The per-row Telegram notification does not write
Subscription rows and per-row errors are isolated, so the row store after a
run is exactly this map. -/
def processExpiredSubscriptions (now : ℤ) (subs : List Subscription) :
    List Subscription :=
  subs.map (fun s => if expiredPred now s then expireRow s else s)

lemma expiredPred_iff (now : ℤ) (s : Subscription) :
    expiredPred now s = true ↔
      s.status = "active" ∧ ∃ t, s.expires_at = some t ∧ t < now := by
  cases h : s.expires_at with
  | none => simp [expiredPred, h]
  | some t => simp [expiredPred, h]

/-- C9: one sweep transitions to expired exactly the rows that are active
with a non-null `expires_at` strictly before now (only the status field
changes on them; every other row is untouched), and a row whose `expires_at`
is null is unchanged by any number of sweeps. -/
theorem processExpiredSubscriptions_exact (now : ℤ) (subs : List Subscription)
    (i : ℕ) (s : Subscription) (hs : subs.get? i = some s) :
    (∃ s2, (processExpiredSubscriptions now subs).get? i = some s2 ∧
      ((s.status = "active" ∧ ∃ t, s.expires_at = some t ∧ t < now) →
        s2 = { s with status := "expired" }) ∧
      (¬ (s.status = "active" ∧ ∃ t, s.expires_at = some t ∧ t < now) →
        s2 = s)) ∧
    (s.expires_at = none →
      ∀ n, ((processExpiredSubscriptions now)^[n] subs).get? i = some s) := by
  constructor
  · refine ⟨if expiredPred now s then expireRow s else s, ?_, ?_, ?_⟩
    · unfold processExpiredSubscriptions
      rw [List.get?_map, hs]
      rfl
    · intro hcond
      rw [if_pos ((expiredPred_iff now s).mpr hcond)]
      rfl
    · intro hcond
      rw [if_neg (fun hp => hcond ((expiredPred_iff now s).mp hp))]
  · intro hnone n
    induction n generalizing subs with
    | zero => simpa using hs
    | succ n ih =>
      rw [Function.iterate_succ_apply]
      apply ih
      unfold processExpiredSubscriptions
      rw [List.get?_map, hs]
      have hpred : expiredPred now s = false := by
        simp [expiredPred, hnone]
      simp [hpred]

/-- Witness for C9: a single active subscription whose expiry time 5 lies
before now = 10 is selected by the sweep. -/
theorem processExpiredSubscriptions_exact_witness :
    ([(⟨"sub-1", some "plan-1", "111", "active", some 0, some 5, 0⟩ : Subscription)].get? 0
      = some ⟨"sub-1", some "plan-1", "111", "active", some 0, some 5, 0⟩) ∧
    ((∃ s2, (processExpiredSubscriptions 10
          [⟨"sub-1", some "plan-1", "111", "active", some 0, some 5, 0⟩]).get? 0 = some s2 ∧
        (((⟨"sub-1", some "plan-1", "111", "active", some 0, some 5, 0⟩ : Subscription).status = "active" ∧
          ∃ t, (⟨"sub-1", some "plan-1", "111", "active", some 0, some 5, 0⟩ : Subscription).expires_at = some t ∧ t < 10) →
          s2 = { (⟨"sub-1", some "plan-1", "111", "active", some 0, some 5, 0⟩ : Subscription) with status := "expired" }) ∧
        (¬ ((⟨"sub-1", some "plan-1", "111", "active", some 0, some 5, 0⟩ : Subscription).status = "active" ∧
          ∃ t, (⟨"sub-1", some "plan-1", "111", "active", some 0, some 5, 0⟩ : Subscription).expires_at = some t ∧ t < 10) →
          s2 = ⟨"sub-1", some "plan-1", "111", "active", some 0, some 5, 0⟩)) ∧
      ((⟨"sub-1", some "plan-1", "111", "active", some 0, some 5, 0⟩ : Subscription).expires_at = none →
        ∀ n, ((processExpiredSubscriptions 10)^[n]
            [⟨"sub-1", some "plan-1", "111", "active", some 0, some 5, 0⟩]).get? 0
          = some ⟨"sub-1", some "plan-1", "111", "active", some 0, some 5, 0⟩)) :=
  ⟨rfl, processExpiredSubscriptions_exact 10
    [⟨"sub-1", some "plan-1", "111", "active", some 0, some 5, 0⟩] 0
    ⟨"sub-1", some "plan-1", "111", "active", some 0, some 5, 0⟩ rfl⟩

end BozyBot
